import Mathlib

/-!
Verification of cassandra-stat (Knewton/cassandra-toolbox).

Shallow embedding of the core of `cassandra-toolbox/cassandra-stat.py`:
the namespace resolver and aggregator inside `CassandraStat.fetch_and_update`,
the differencer `CassandraStat.diffdata`, the display filter and separator
logic in `CassandraStat.print_dataline`, the header cadence in
`CassandraStat.run`, and the error-handling dispatch of `fetch_and_update`.

Python dicts are modelled as association lists preserving insertion order
(assignment to an existing key updates in place, a new key is appended),
numeric metric values as `Int`, and raised exceptions as `Except String`.
-/

namespace CassandraStat

/-- A per-metric value dict `\x7b <internalname>: value \x7d`. -/
abbrev MetricData := List (String × Int)

/-- The data dict `\x7b <namespace>: \x7b <internalname>: value \x7d \x7d`. -/
abbrev Data := List (String × MetricData)

/-- Python `d.get(k)` on a string-keyed dict. -/
def dget (d : List (String × Int)) (k : String) : Option Int :=
  (d.find? (fun p => p.1 == k)).map (fun p => p.2)

/-- Python `d[k] = v`: update in place when the key exists, else append. -/
def dset (d : List (String × Int)) (k : String) (v : Int) : List (String × Int) :=
  if d.any (fun p => p.1 == k) then
    d.map (fun p => if p.1 == k then (k, v) else p)
  else
    d ++ [(k, v)]

/-- Python `data.get(ns)` on the outer data dict. -/
def dataGet (d : Data) (ns : String) : Option MetricData :=
  (d.find? (fun p => p.1 == ns)).map (fun p => p.2)

/-- Python `data[ns] = md` on the outer data dict. -/
def dataSet (d : Data) (ns : String) (md : MetricData) : Data :=
  if d.any (fun p => p.1 == ns) then
    d.map (fun p => if p.1 == ns then (ns, md) else p)
  else
    d ++ [(ns, md)]

/-- One entry of the `self.metrics` catalog (a Python dict literal); absent
keys default the way `metric.get(...)` defaults them in the source. -/
structure Metric where
  metric_name : String
  metric_key : String
  display_name : String
  sum : Bool := false
  diff : Bool := false
  nonzero : Bool := false
  space : Option Nat := none
deriving DecidableEq, Repr

/-- The static metric catalog `self.metrics` from `CassandraStat.__init__`. -/
def metrics : List Metric :=
  [⟨"ReadLatency", "Count", "Reads", true, true, true, none⟩,
   ⟨"RangeLatency", "Count", "Ranges", true, true, true, none⟩,
   ⟨"WriteLatency", "Count", "Writes", true, true, true, none⟩,
   ⟨"ReadLatency", "99thPercentile", "Reads (99%) ms", false, false, false, none⟩,
   ⟨"RangeLatency", "99thPercentile", "Ranges (99%) ms", false, false, false, none⟩,
   ⟨"WriteLatency", "99thPercentile", "Writes (99%) ms", false, false, false, none⟩,
   ⟨"PendingCompactions", "Value", "Compactions", true, false, false, none⟩,
   ⟨"PendingFlushes", "Count", "Flushes", true, false, false, none⟩,
   ⟨"RowCacheMiss", "Count", "Row Cache Misses", true, true, false, none⟩]

/-- The configuration flags consumed by the resolver/aggregator/display code. -/
structure Config where
  show_system : Bool
  show_keyspace : Bool
  show_cfs : Bool
  show_total : Bool
  show_zeros : Bool
  namespaces : List String
deriving DecidableEq, Repr

/-- The JMX key attributes relevant to `fetch_and_update`, as produced by
`parse_jmx_key`: the `keyspace` and `scope` fields, each possibly absent. -/
structure JmxFields where
  keyspace : Option String
  scope : Option String
deriving DecidableEq, Repr

/-- The fixed set of system keyspace names tested at lines 311-314. -/
def systemKeyspaces : List String :=
  ["system", "system_keyspaces", "system_auth"]

/-- Python `"." in passed_in_namespace` (line 331): substring membership of
the one-character string `"."`, i.e. whether the entry contains a dot. -/
def containsDot (s : String) : Bool := s.data.contains '.'

/-- The loop over `self.namespaces` at lines 330-338: sets the
`include_namespace` flag and breaks at the first matching entry. -/
def namespaceLoop : List String → String → String → Bool
  | [], _, _ => false
  | e :: rest, full_namespace, keyspace =>
    if containsDot e then
      if e == full_namespace then true else namespaceLoop rest full_namespace keyspace
    else
      if e == keyspace then true else namespaceLoop rest full_namespace keyspace

/-- The allow-list check of lines 328-340: with an empty `self.namespaces`
list (falsy in Python) no restriction applies; otherwise the entry is
included exactly when the loop sets the flag. -/
def include_namespace (namespaces : List String) (keyspace scope : String) : Bool :=
  match namespaces with
  | [] => true
  | _ :: _ => namespaceLoop namespaces (keyspace ++ "." ++ scope) keyspace

/-- The per-namespace accumulation of lines 357-363: first contribution is
stored verbatim; afterwards `sum_values` adds, otherwise the stored value is
replaced only when the new value is strictly greater. -/
def accumulate (md : MetricData) (internalname : String) (v : Int) (sum_values : Bool) : MetricData :=
  match dget md internalname with
  | none => dset md internalname v
  | some old =>
    if sum_values then dset md internalname (old + v)
    else if old < v then dset md internalname v
    else md

/-- The `"total"` accumulation of lines 366-372.  Line 369 tests `if sum:`
where `sum` is the Python builtin function, which is always truthy, so the
max branch at lines 371-372 is unreachable and the total row always adds. -/
def accumulateTotal (md : MetricData) (internalname : String) (v : Int) : MetricData :=
  match dget md internalname with
  | none => dset md internalname v
  | some old => dset md internalname (old + v)

/-- The body of the `for key, jmx_obj in jmx_data.items()` loop of
`fetch_and_update` (lines 300-372) for a single parsed entry: the two
`continue` filters, the unconditional `full_namespace` construction (a
`KeyError` when `scope` is absent, line 321), the allow-list `continue`,
granularity selection, per-namespace accumulation, and the total update
(a `KeyError` when `"total"` is missing from the data dict, line 366). -/
def processEntry (cfg : Config) (data : Data) (fields : JmxFields) (v : Int)
    (internalname : String) (sum_values : Bool) : Except String Data :=
  match fields.keyspace with
  | none => .ok data
  | some ksp =>
    if systemKeyspaces.contains ksp && !cfg.show_system then .ok data
    else
      match fields.scope with
      | none => .error "KeyError: scope"
      | some cf =>
        let full_namespace := ksp ++ "." ++ cf
        if !include_namespace cfg.namespaces ksp cf then .ok data
        else
          let ns : Option String :=
            if cfg.show_cfs then some full_namespace
            else if cfg.show_keyspace then some ksp
            else none
          let data1 : Data :=
            match ns with
            | some n =>
              if n ≠ "" then
                let d0 := (dataGet data n).getD []
                dataSet data n (accumulate d0 internalname v sum_values)
              else data
            | none => data
          if cfg.show_total then
            match dataGet data1 "total" with
            | none => .error "KeyError: total"
            | some md => .ok (dataSet data1 "total" (accumulateTotal md internalname v))
          else .ok data1

/-- The whole `for key, jmx_obj in jmx_data.items()` loop: entries are
processed in insertion order; a raised exception aborts the loop. -/
def processEntries (cfg : Config) (data : Data) (entries : List (JmxFields × Int))
    (internalname : String) (sum_values : Bool) : Except String Data :=
  match entries with
  | [] => .ok data
  | (f, v) :: rest =>
    match processEntry cfg data f v internalname sum_values with
    | .error e => .error e
    | .ok d => processEntries cfg d rest internalname sum_values

/-- Output stream of a printed message. -/
inductive Stream where
  | stdout
  | stderr
deriving DecidableEq, Repr

/-- Result of the HTTP request made by `fetch_and_update`: either a
`requests.exceptions.ConnectionError`, or a response with a status code, the
`error` field of the JSON body (empty string when absent, falsy in Python),
and the parsed entries of the `value` field. -/
inductive FetchResult where
  | connectionError
  | response (status : Nat) (errorField : String) (entries : List (JmxFields × Int))
deriving DecidableEq, Repr

/-- Observable outcome of one `fetch_and_update` call. -/
inductive FetchOutcome where
  | fatalExit (stream : Stream) (code : Nat)
  | skipMetric (stream : Stream) (data : Data)
  | completed (result : Except String Data)
deriving Repr

/-- `fetch_and_update` (lines 274-372): a `ConnectionError` prints the
remediation message with plain `print` (standard output, lines 281-288) and
exits with code 1; a response with status >= 400 or a truthy `error` field
logs with `stderr_print` and returns, leaving the data dict unchanged
(lines 290-297); otherwise the entries of the body are processed. -/
def fetch_and_update (cfg : Config) (data : Data) (resp : FetchResult)
    (internalname : String) (sum_values : Bool) : FetchOutcome :=
  match resp with
  | .connectionError => .fatalExit .stdout 1
  | .response status errorField entries =>
    if status ≥ 400 || errorField ≠ "" then .skipMetric .stderr data
    else .completed (processEntries cfg data entries internalname sum_values)

/-- Models the expression `metric("diff")` at line 429 of `diffdata`: the
loop variable `metric` is a dict, and calling a dict raises `TypeError`
before the condition can be evaluated. -/
def metricCallDiff (_m : Metric) : Except String Bool :=
  .error "TypeError: dict object is not callable"

/-- One iteration of the inner `for metric in self.metrics` loop of
`diffdata` (lines 426-439): evaluate `metric("diff")` (which raises), and —
were a boolean obtained — either store current minus previous (lines
430-435) or the current value (lines 437-439) under the display name. -/
def diffOne (current_metric_data : MetricData) (previous_data : Data) (ns : String)
    (m : Metric) (acc : MetricData) : Except String MetricData :=
  match metricCallDiff m with
  | .error e => .error e
  | .ok b =>
    if b then
      .ok (dset acc m.display_name
        ((dget current_metric_data m.display_name).getD 0 -
          (dget ((dataGet previous_data ns).getD []) m.display_name).getD 0))
    else
      .ok (dset acc m.display_name ((dget current_metric_data m.display_name).getD 0))

/-- The inner metric loop of `diffdata` over the whole catalog. -/
def diffNsMetrics (current_metric_data : MetricData) (previous_data : Data) (ns : String) :
    List Metric → MetricData → Except String MetricData
  | [], acc => .ok acc
  | m :: rest, acc =>
    match diffOne current_metric_data previous_data ns m acc with
    | .error e => .error e
    | .ok acc1 => diffNsMetrics current_metric_data previous_data ns rest acc1

/-- The outer `for ns, current_metric_data in self.current_data.items()`
loop of `diffdata`, threading the `retval` dict. -/
def diffdataGo (previous_data : Data) (ms : List Metric) :
    List (String × MetricData) → Data → Except String Data
  | [], retval => .ok retval
  | (ns, cmd) :: rest, retval =>
    match diffNsMetrics cmd previous_data ns ms ((dataGet retval ns).getD []) with
    | .error e => .error e
    | .ok md => diffdataGo previous_data ms rest (dataSet retval ns md)

/-- `diffdata` (lines 406-440): `retval` starts as a deep copy of
`current_data`, then each namespace of `current_data` is rewritten metric by
metric; evaluating `metric("diff")` raises `TypeError` as soon as the inner
loop body runs. -/
def diffdata (current_data previous_data : Data) (ms : List Metric) : Except String Data :=
  diffdataGo previous_data ms current_data current_data

/-- Python truthiness of `metric_data.get(name)`: `None` (absent) and `0`
are falsy, every other number truthy. -/
def truthyGet (md : MetricData) (name : String) : Bool :=
  match dget md name with
  | none => false
  | some v => v ≠ 0

/-- Line 454: the catalog metrics carrying a truthy `nonzero` flag. -/
def nonzero_fields (ms : List Metric) : List Metric :=
  ms.filter (fun x => x.nonzero)

/-- Lines 464-466: the nonzero-designated metrics whose value for this
namespace is truthy (present and different from 0). -/
def ns_nonzero_fields (ms : List Metric) (metric_data : MetricData) : List Metric :=
  (nonzero_fields ms).filter (fun y => truthyGet metric_data y.display_name)

/-- The row-visibility condition of lines 481-484: the activity/zeros test
OR the `"total"`-row test `ns == "total" and self.show_total`. -/
def showsRow (show_zeros show_total : Bool) (ms : List Metric) (ns : String)
    (metric_data : MetricData) : Bool :=
  (!(ns_nonzero_fields ms metric_data).isEmpty || show_zeros ||
    (nonzero_fields ms).isEmpty) ||
  (ns == "total" && show_total)

/-- The namespaces whose data line is printed by the loop of
`print_dataline` (lines 457-496), in iteration order. -/
def printedRows (show_zeros show_total : Bool) (ms : List Metric) (data : Data) : List String :=
  (data.filter (fun p => showsRow show_zeros show_total ms p.1 p.2)).map (fun p => p.1)

/-- `print_dataline` (lines 442-500): the rows of `printedRows` are printed,
then line 499 evaluates `len(number_of_printed_ns)` where
`number_of_printed_ns` is an int, raising `TypeError`; the second component
records whether the blank separator line was printed. -/
def print_dataline (show_zeros show_total : Bool) (ms : List Metric) (data : Data) :
    List String × Except String Bool :=
  (printedRows show_zeros show_total ms data, .error "TypeError: object of type int has no len()")

/-- One iteration of the `while True` loop of `run` (lines 158-166),
modelling only the header bookkeeping: `prev_nonempty` is whether
`self.previous_data` is nonempty (truthy) at the top of the iteration;
returns the new `batch_cnt` and whether the header was printed. -/
def runStep (printed_rows_between_headers batch_cnt : Int) (prev_nonempty : Bool) : Int × Bool :=
  let b := if prev_nonempty then batch_cnt + 1 else batch_cnt
  if b == printed_rows_between_headers then (1, true) else (b, false)

/-- Header occurrences across loop iterations of `run`: the list element of
`fetches` for an iteration tells whether `get_data` left `current_data`
nonempty there, which is what `previous_data` is at the next iteration. -/
def loopHeaders (hr : Int) : Int → Bool → List Bool → List Bool
  | _, _, [] => []
  | b, prev, f :: fs =>
    let s := runStep hr b prev
    s.2 :: loopHeaders hr s.1 f fs

/-- Total number of header lines printed by `run` over the given loop
iterations: the initial header of lines 156-157 (printed iff
`printed_rows_between_headers >= 0`) plus the in-loop reprints. -/
def headersPrinted (hr : Int) (fetches : List Bool) : Nat :=
  (if hr ≥ 0 then 1 else 0) + (loopHeaders hr 0 false fetches).count true

/-- A concrete configuration: all boolean display options at their CLI
defaults (`show_total` true, everything else false, empty allow-list). -/
def cfg0 : Config := ⟨false, false, false, true, false, []⟩

/-- The namespace loop of lines 330-338 sets the include flag exactly when
some allow-list entry matches: entries containing a dot are compared against
the fully-qualified namespace, entries without a dot against the keyspace. -/
lemma namespaceLoop_eq_true_iff (l : List String) (full ksp : String) :
    namespaceLoop l full ksp = true ↔
      ∃ e ∈ l, (containsDot e = true ∧ e = full) ∨
        (containsDot e = false ∧ e = ksp) := by
  induction l with
  | nil => simp [namespaceLoop]
  | cons e rest ih =>
    constructor
    · intro hl
      rw [namespaceLoop] at hl
      by_cases hc : containsDot e = true
      · rw [if_pos hc] at hl
        by_cases hf : e = full
        · exact ⟨e, List.mem_cons_self e rest, Or.inl ⟨hc, hf⟩⟩
        · rw [beq_eq_false_iff_ne.mpr hf] at hl
          simp only [Bool.false_eq_true, if_false] at hl
          obtain ⟨a, ha, hp⟩ := ih.mp hl
          exact ⟨a, List.mem_cons_of_mem e ha, hp⟩
      · have hc2 : containsDot e = false := by simpa using hc
        rw [hc2] at hl
        simp only [Bool.false_eq_true, if_false] at hl
        by_cases hk : e = ksp
        · exact ⟨e, List.mem_cons_self e rest, Or.inr ⟨hc2, hk⟩⟩
        · rw [beq_eq_false_iff_ne.mpr hk] at hl
          simp only [Bool.false_eq_true, if_false] at hl
          obtain ⟨a, ha, hp⟩ := ih.mp hl
          exact ⟨a, List.mem_cons_of_mem e ha, hp⟩
    · rintro ⟨a, ha, hp⟩
      rw [List.mem_cons] at ha
      rw [namespaceLoop]
      rcases ha with rfl | ha
      · rcases hp with ⟨hc, rfl⟩ | ⟨hc, rfl⟩
        · simp [hc]
        · simp [hc]
      · have hr := ih.mpr ⟨a, ha, hp⟩
        by_cases hc : containsDot e = true
        · simp [hc, hr]
        · have hc2 : containsDot e = false := by simpa using hc
          simp [hc2, hr]

/-- C1: the claim states that `diffdata` outputs, for each namespace of
`current_data` and each catalog metric, current minus previous when the
metric's diff flag is set and the current value otherwise.  The code instead
evaluates `metric("diff")` at line 429, calling the metric dict as a
function, which raises `TypeError` as soon as a namespace and a metric
exist: evaluated here at the concrete current data
`[("total", [("Reads", 5)])]` with the built-in catalog, for every previous
snapshot. -/
theorem C1_diffdata_raises_typeerror (previous_data : Data) :
    diffdata [("total", [("Reads", 5)])] previous_data metrics =
      .error "TypeError: dict object is not callable" := rfl

/-- C2: the claim states that the `"total"` namespace aggregates with the
Max policy when `sum_values` is false.  Because line 369 tests the Python
builtin `sum` (always truthy) instead of `sum_values`, the total row adds:
two samples 5 and 3 under the Max policy leave 8 in the total row, not
`max 5 3 = 5`. -/
theorem C2_total_max_policy_sums :
    processEntries cfg0 [("total", [])]
        [(⟨some "ks1", some "cf1"⟩, 5), (⟨some "ks1", some "cf2"⟩, 3)] "Reads" false =
      .ok [("total", [("Reads", 8)])] ∧ (8 : Int) ≠ max 5 3 :=
  ⟨rfl, by decide⟩

/-- C3 counterexample: a diffed data dict whose `"total"` row has value 0
for every nonzero-flagged metric (so `ns_nonzero_fields` is empty), with
`show_zeros` disabled and the built-in catalog (which has nonzero-flagged
metrics); the claim says the total row is not printed when total-row output
is enabled, but `print_dataline` prints it, because line 483 makes
`ns == "total" and self.show_total` a disjunct of the visibility test. -/
theorem C3_counterexample_zero_total_row_printed :
    printedRows false true metrics [("total", [("Reads", 0)])] = ["total"] ∧
      (ns_nonzero_fields metrics [("Reads", 0)]).isEmpty = true := by
  constructor
  · rfl
  · rfl

/-- C3 amended: with `show_zeros` disabled and at least one metric flagged
nonzero, the `"total"` row is printed iff total-row output is enabled OR
some nonzero-flagged metric has a truthy value for it; with total-row output
disabled the total row follows the same nonzero rule as other namespaces. -/
theorem C3_total_row_visibility (ms : List Metric) (md : MetricData) (st : Bool)
    (h : nonzero_fields ms ≠ []) :
    showsRow false st ms "total" md = (st || !(ns_nonzero_fields ms md).isEmpty) := by
  have h2 : (nonzero_fields ms).isEmpty = false := by
    cases hnf : nonzero_fields ms with
    | nil => exact absurd hnf h
    | cons a l => rfl
  simp [showsRow, h2, Bool.or_comm]

/-- Witness for C3 amended at the built-in catalog, empty metric data and
total-row output enabled. -/
theorem C3_total_row_visibility_witness :
    nonzero_fields metrics ≠ [] ∧
      showsRow false true metrics "total" [] =
        (true || !(ns_nonzero_fields metrics []).isEmpty) :=
  ⟨by decide, C3_total_row_visibility metrics [] true (by decide)⟩

/-- C4: the claim states that `print_dataline` terminates normally and
prints a blank separator exactly when more than one row was printed.  Line
499 evaluates `len(number_of_printed_ns)` where that variable is an int, so
every call raises `TypeError` instead of reaching the separator logic. -/
theorem C4_print_dataline_raises_typeerror (show_zeros show_total : Bool)
    (ms : List Metric) (data : Data) :
    (print_dataline show_zeros show_total ms data).2 =
      .error "TypeError: object of type int has no len()" := rfl

/-- C5: the claim (and the constructor docstring) states that with
`header_rows = 0` the header is printed exactly once and never again, and
with positive N it is reprinted every N emitted intervals.  In the code,
with `header_rows = 0` the first loop iteration reprints the header because
`batch_cnt` (0) equals `header_rows` (line 162), giving 2 headers; and with
N = 2 the reset of `batch_cnt` to 1 (line 163) makes the header reappear on
every iteration from the first reprint on, not every 2. -/
theorem C5_header_cadence_violations :
    headersPrinted 0 [false] = 2 ∧
      headersPrinted 0 [false, true, true] = 2 ∧
      loopHeaders 2 0 false [true, true, true, true, true] =
        [false, false, true, true, true] := by
  refine ⟨by decide, by decide, by decide⟩

/-- C6 counterexample: on a `ConnectionError` the remediation message is
printed with plain `print` (lines 281-288), i.e. to standard output, not to
the error stream as the claim states. -/
theorem C6_counterexample_remediation_on_stdout :
    fetch_and_update cfg0 [] .connectionError "Reads" true =
        .fatalExit .stdout 1 ∧
      Stream.stdout ≠ Stream.stderr :=
  ⟨rfl, by decide⟩

/-- C6 amended: on a connection-level failure the program prints the
remediation message to standard output and terminates with exit code 1,
without retrying, for every configuration and data dict. -/
theorem C6_connection_error_fatal_stdout (cfg : Config) (data : Data)
    (name : String) (sv : Bool) :
    fetch_and_update cfg data .connectionError name sv = .fatalExit .stdout 1 := rfl

/-- C7: the allow-list semantics of lines 328-340.  A sample passes the
filter iff the allow-list is empty, or some entry with a dot equals the
fully-qualified `keyspace.scope` string, or some entry without a dot equals
the keyspace; in particular with allow-list `["ks1", "ks2.cf3"]`, parent
`ks1` with any child passes, `ks2`/`cf3` passes, `ks2`/`cf4` does not. -/
theorem C7_allow_list_semantics :
    (∀ (nss : List String) (ks sc : String),
        include_namespace nss ks sc = true ↔
          nss = [] ∨ ∃ e ∈ nss,
            (containsDot e = true ∧ e = ks ++ "." ++ sc) ∨
            (containsDot e = false ∧ e = ks)) ∧
      (∀ cf : String, include_namespace ["ks1", "ks2.cf3"] "ks1" cf = true) ∧
      include_namespace ["ks1", "ks2.cf3"] "ks2" "cf3" = true ∧
      include_namespace ["ks1", "ks2.cf3"] "ks2" "cf4" = false := by
  refine ⟨?_, fun cf => rfl, by decide, by decide⟩
  intro nss ks sc
  cases nss with
  | nil => simp [include_namespace]
  | cons e rest =>
    rw [show include_namespace (e :: rest) ks sc =
          namespaceLoop (e :: rest) (ks ++ "." ++ sc) ks from rfl]
    rw [namespaceLoop_eq_true_iff]
    simp

/-- Witness for C7 at the concrete allow-list of the claim. -/
theorem C7_allow_list_semantics_witness :
    include_namespace ["ks1", "ks2.cf3"] "ks2" "cf3" = true :=
  C7_allow_list_semantics.2.2.1

/-- C8: a sample whose keyspace is one of the built-in system keyspace
names is skipped by the `continue` of lines 310-317 when `show_system` is
false, before the namespace update and before the total update: processing
it leaves the data dict unchanged, for every configuration, scope and
value. -/
theorem C8_system_keyspace_skipped (cfg : Config) (data : Data) (k : String)
    (sc : Option String) (v : Int) (name : String) (sv : Bool)
    (hk : systemKeyspaces.contains k = true) (hs : cfg.show_system = false) :
    processEntry cfg data ⟨some k, sc⟩ v name sv = .ok data := by
  have hcond : (systemKeyspaces.contains k && !cfg.show_system) = true := by
    rw [hk, hs]
    rfl
  simp only [processEntry]
  rw [hcond]
  simp

/-- Witness for C8 at keyspace `"system"` and the default configuration. -/
theorem C8_system_keyspace_skipped_witness :
    systemKeyspaces.contains "system" = true ∧ cfg0.show_system = false ∧
      processEntry cfg0 [("total", [])] ⟨some "system", some "cf"⟩ 9 "Reads" true =
        .ok [("total", [])] :=
  ⟨by decide, by decide,
    C8_system_keyspace_skipped cfg0 [("total", [])] "system" (some "cf") 9 "Reads" true
      (by decide) (by decide)⟩

/-- C9: when the source responds with status >= 400 or a nonempty `error`
field, `fetch_and_update` logs a line via `stderr_print` (the error stream)
and returns immediately (lines 290-297): the outcome is a skip that leaves
the data dict unchanged, so that metric contributes nothing this interval
and the caller's loop over metrics continues. -/
theorem C9_source_error_skips_metric (cfg : Config) (data : Data) (status : Nat)
    (err : String) (entries : List (JmxFields × Int)) (name : String) (sv : Bool)
    (h : 400 ≤ status ∨ err ≠ "") :
    fetch_and_update cfg data (.response status err entries) name sv =
      .skipMetric .stderr data := by
  rcases h with h | h
  · simp [fetch_and_update, h]
  · simp [fetch_and_update, h]

/-- Witness for C9 at a 404 response with an empty error field. -/
theorem C9_source_error_skips_metric_witness :
    (400 ≤ 404 ∨ ("" : String) ≠ "") ∧
      fetch_and_update cfg0 [("total", [])] (.response 404 "" []) "Reads" true =
        .skipMetric .stderr [("total", [])] :=
  ⟨Or.inl (by decide),
    C9_source_error_skips_metric cfg0 [("total", [])] 404 "" [] "Reads" true
      (Or.inl (by decide))⟩

/-- C10: an entry whose parsed JMX key has a `keyspace` attribute but no
`scope` attribute, and which is not dropped by the system-keyspace filter,
raises `KeyError` at line 321 where `full_namespace` is built
unconditionally from `fields["scope"]` — before granularity selection, so
also when `show_cfs` is false — and the raised error aborts the entry loop
for that metric. -/
theorem C10_missing_scope_raises_keyerror (cfg : Config) (data : Data) (k : String)
    (v : Int) (name : String) (sv : Bool) (rest : List (JmxFields × Int))
    (h : (systemKeyspaces.contains k && !cfg.show_system) = false) :
    processEntry cfg data ⟨some k, none⟩ v name sv = .error "KeyError: scope" ∧
      processEntries cfg data ((⟨some k, none⟩, v) :: rest) name sv =
        .error "KeyError: scope" := by
  have h1 : processEntry cfg data ⟨some k, none⟩ v name sv = .error "KeyError: scope" := by
    simp only [processEntry]
    rw [h]
    simp
  exact ⟨h1, by simp [processEntries, h1]⟩

/-- Witness for C10 at keyspace `"ks1"` with `show_cfs` disabled. -/
theorem C10_missing_scope_raises_keyerror_witness :
    (systemKeyspaces.contains "ks1" && !cfg0.show_system) = false ∧
      processEntry cfg0 [("total", [])] ⟨some "ks1", none⟩ 9 "Reads" true =
        .error "KeyError: scope" :=
  ⟨by decide,
    (C10_missing_scope_raises_keyerror cfg0 [("total", [])] "ks1" 9 "Reads" true []
      (by decide)).1⟩

end CassandraStat
